import Mathlib

/-!
Verification of the Memphis acquisition / quality-gate / enrichment pipeline.

This file is a shallow embedding, in Lean 4, of the core algorithms of the
repository (packages/backend and packages/shared): the lexicon-based
sentiment analyzer, the DQM quality-score computation and pass decision for
both platforms, the orchestrator dedup / counter / run-status logic, the
rate-limit retry loop of the scraper and its pagination (scroll) loop.

Modelling conventions:
  - JS strings of the relevant code paths are ASCII; JS string operations
    (toLowerCase, trim, includes, split on whitespace, regex replaces used
    by the code) are implemented below on lists of characters.
  - JS numbers are modelled as rationals; all constants appearing in the
    code (0.5, 0.15, 0.8, ...) are exact decimal fractions.
  - Database calls are modelled by explicit state (a list of stored
    external ids, record structures for the rows that are read/written).
-/

/-! ## String utilities (JS semantics) -/

/-- Does the second list of characters start with the first one? -/
def charsStarts : List Char → List Char → Bool
  | [], _ => true
  | _ :: _, [] => false
  | p :: ps, c :: cs => p == c && charsStarts ps cs

/-- Substring containment on character lists (JS String.prototype.includes). -/
def charsHas (pat : List Char) : List Char → Bool
  | [] => pat == []
  | c :: cs => charsStarts pat (c :: cs) || charsHas pat cs

/-- JS s.includes(pat). -/
def strHas (s pat : String) : Bool :=
  charsHas pat.toList s.toList

/-- JS s.toLowerCase() (ASCII). -/
def strLower (s : String) : String :=
  String.mk (s.toList.map Char.toLower)

/-- JS s.trim(). -/
def trimChars (l : List Char) : List Char :=
  ((l.dropWhile Char.isWhitespace).reverse.dropWhile Char.isWhitespace).reverse

/-- Split a character list at whitespace runs, collecting the words. -/
def wordsAux : List Char → List Char → List (List Char)
  | [], acc => [acc.reverse]
  | c :: cs, acc =>
    if c.isWhitespace then acc.reverse :: wordsAux cs [] else wordsAux cs (c :: acc)

/-- JS s.split(a whitespace run) with empty fields dropped.  The code only
ever consumes the split result through filters that also drop empty strings
(token length greater than 2) or through membership tests that an empty
string fails, so dropping the boundary empties JS would keep is
observationally identical. -/
def wordsOf (s : String) : List String :=
  ((wordsAux s.toList []).filter (fun w => ¬ w.isEmpty)).map String.mk

/-- JS regex class backslash-w: ASCII letters, digits and underscore. -/
def isWordCharJS (c : Char) : Bool :=
  c.isAlphanum || c == '_'

/-- SentimentAnalyzer.tokenize: lowercase, punctuation to space, digits
removed, split on whitespace, keep words of length greater than 2. -/
def tokenizeText (text : String) : List String :=
  let cs := text.toList.map Char.toLower
  let cs := cs.map (fun c => if isWordCharJS c || c.isWhitespace then c else ' ')
  let cs := cs.filter (fun c => ¬ c.isDigit)
  (((wordsAux cs []).filter (fun w => ¬ w.isEmpty)).map String.mk).filter
    (fun w => 2 < w.length)

/-! ## Lexicon (packages/shared, sentimentLexicon.ts)

The JS sources build Sets from array literals; a Set keeps the first
occurrence of a duplicate, so the few duplicated literals of the source
(one repeated positive word, one repeated negative word, one repeated
nutrition keyword) appear once below, at their first position. -/

/-- positiveSentimentWords, in source (insertion) order. -/
def positiveSentimentWords : List String :=
  ["baik", "bagus", "sangat bagus", "cukup baik", "memuaskan", "mantap",
   "hebat", "oke", "puas", "senang", "terbantu", "bermanfaat", "sesuai",
   "tepat sasaran", "mudah", "jelas", "lengkap", "cepat", "terjangkau",
   "murah", "mahal tapi sepadan", "ramah", "responsif", "tersedia",
   "cukup tersedia", "melimpah", "stabil", "aman", "sehat", "bergizi",
   "nutritif", "berkualitas", "segar", "enak", "layak", "memadai",
   "terpenuhi", "tercukupi", "kecukupan gizi", "gizi tercukupi",
   "makan teratur", "porsi cukup", "menu bervariasi", "protein cukup",
   "sayur cukup", "buah cukup", "asi lancar", "mpasi baik",
   "posyandu membantu", "pelayanan baik", "bantuan tepat waktu",
   "bantuan bermanfaat", "bansos membantu", "harga stabil",
   "harga terjangkau", "akses mudah", "pasokan lancar", "stok ada",
   "tidak kelaparan", "tidak kekurangan", "tidak khawatir", "optimis",
   "terjamin", "cukup", "pas", "lumayan",
   "sukses", "berhasil", "maju", "positif", "membaik", "tumbuh",
   "sembuh", "pulih", "optimal", "meningkat", "berkembang", "normal",
   "ideal", "kuat", "aktif", "berprestasi"]

/-- negativeSentimentWords, in source (insertion) order. -/
def negativeSentimentWords : List String :=
  ["biasa saja", "standar", "netral", "tidak masalah", "tidak terlalu",
   "kurang", "kurang baik", "tidak baik", "buruk", "sangat buruk",
   "mengecewakan", "kecewa", "sedih", "khawatir", "cemas", "stress",
   "tertekan", "lelah", "lapar", "kelaparan", "kekurangan",
   "kekurangan gizi", "gizi kurang", "gizi buruk", "stunting", "kurus",
   "wasting", "anemia", "kurang darah", "bb kurang", "berat badan turun",
   "nafsu makan turun", "sakit-sakitan", "makanan tidak sehat",
   "junk food", "makanan instan", "tidak segar", "basi", "tidak enak",
   "hambar", "porsi kurang", "porsi kecil", "menu tidak bervariasi",
   "jarang makan", "tidak makan", "terlambat makan", "susah makan",
   "sulit makan", "anak susah makan", "tidak ada uang", "tidak mampu",
   "penghasilan turun", "pengangguran", "utang", "mahal", "sangat mahal",
   "harga naik", "inflasi", "biaya tinggi", "akses sulit", "jauh",
   "transport mahal", "pasar jauh", "tidak tersedia", "stok habis",
   "kosong", "langka", "pasokan terganggu", "distribusi lambat", "antri",
   "pelayanan buruk", "tidak ramah", "lambat", "rumit", "berbelit",
   "tidak jelas", "membingungkan", "data tidak akurat", "data salah",
   "tidak valid", "bias", "tidak konsisten", "duplikat",
   "tidak lengkap", "tidak sesuai", "tidak tepat", "tidak tepat sasaran",
   "bantuan tidak tepat sasaran", "bantuan terlambat", "bantuan kurang",
   "bansos tidak ada", "korupsi", "pungli", "curang", "tidak dipercaya",
   "hoaks", "informasi salah", "minim informasi", "rentan", "rawan pangan",
   "tidak tahan pangan", "krisis pangan", "darurat pangan", "banjir",
   "kekeringan", "gagal panen", "cuaca buruk", "panen buruk", "hama",
   "harga pupuk naik", "harga pakan naik", "hasil turun",
   "pendapatan petani turun", "pasar sepi", "daya beli turun",
   "gagal", "menurun", "turun", "krisis", "parah", "darurat", "lemah",
   "sakit", "penyakit", "masalah", "kendala", "minim", "rendah"]

/-- nutritionKeywords, in source (insertion) order. -/
def nutritionKeywords : List String :=
  ["gizi", "nutrisi", "makan", "makanan", "minum", "minuman", "diet",
   "protein", "karbohidrat", "lemak", "vitamin", "mineral", "serat",
   "sayur", "buah", "nasi", "lauk", "lauk pauk",
   "stunting", "malnutrisi", "buruk", "sehat", "sakit", "imun",
   "daya tahan", "tumbuh", "kembang", "anak", "balita", "ibu",
   "hamil", "menyusui", "asi", "mpasi",
   "mbg", "makan siang gratis", "makan bergizi gratis", "program",
   "kebijakan", "pemerintah", "subsidi", "bantuan", "bansos", "pangan",
   "ketahanan pangan", "kedaulatan pangan", "swasembada",
   "lapar", "kenyang", "sekolah", "kantin", "kantin sehat",
   "kualitas", "kuantitas", "cukup", "kurang", "lebih", "imbang",
   "posyandu", "kader", "anak usia dini"]

/-- SentimentAnalyzer.NEGATION_WORDS (an array in the source; the repeated
entry is kept, as arrays keep duplicates). -/
def NEGATION_WORDS : List String :=
  ["tidak", "bukan", "tanpa", "belum", "jangan", "nggak", "enggak", "tak",
   "gak", "tak", "jgn", "g"]

/-- SentimentAnalyzer.BOOSTER_WORDS (an array in the source; the repeated
entry is kept). -/
def BOOSTER_WORDS : List String :=
  ["sangat", "amat", "terlalu", "benar-benar", "sungguh", "sekali",
   "banget", "bgt", "parah", "sekali"]

/-- Modelled from the spec: the Indonesian stopword set
(packages/shared nlp/stopwords.ts) is not among the provided source files;
only its re-export and its documentation are.  The spec describes it as a
fixed language-specific stopword set, and the project documentation lists
its leading members, which are taken here verbatim. -/
def indonesianStopwords : List String :=
  ["yang", "dan", "di", "ke", "dari", "untuk", "dengan", "adalah",
   "ini", "itu", "juga", "atau", "karena", "tapi", "kalau"]

/-- removeStopwords (packages/shared): filter out stopword tokens. -/
def removeStopwords (tokens : List String) : List String :=
  tokens.filter (fun t => ¬ indonesianStopwords.contains t)

/-- Does the entry contain a space, i.e. is it a multi-word phrase? -/
def hasSpace (p : String) : Bool :=
  strHas p " "

/-- getSentimentScore (sentimentLexicon.ts): signed lexicon membership of a
single word, with a fallback scan for multi-word phrases contained in the
word. -/
def getSentimentScore (word : String) : Int :=
  let w := String.mk (trimChars (strLower word).toList)
  if positiveSentimentWords.contains w then 1
  else if negativeSentimentWords.contains w then -1
  else if positiveSentimentWords.any (fun p => hasSpace p && strHas w p) then 1
  else if negativeSentimentWords.any (fun p => hasSpace p && strHas w p) then -1
  else 0

/-- extractNutritionKeywords (sentimentLexicon.ts): every nutrition keyword
contained (as a substring) in the lowercased text, in lexicon order. -/
def extractNutritionKeywords (text : String) : List String :=
  nutritionKeywords.filter (fun k => strHas (strLower text) k)

/-- SentimentAnalyzer.checkNegation on the already split word list: some
negation word immediately followed by a lexicon-bearing word. -/
def checkNegationWords : List String → Bool
  | w1 :: w2 :: rest =>
    (NEGATION_WORDS.contains w1 && getSentimentScore w2 != 0)
    || checkNegationWords (w2 :: rest)
  | _ => false

/-- SentimentAnalyzer.checkNegation. -/
def checkNegation (text : String) : Bool :=
  checkNegationWords (wordsOf (strLower text))

/-! ## SentimentAnalyzer.analyzeText -/

inductive SentimentLabel
  | POSITIVE
  | NEGATIVE
  | NEUTRAL
  | MIXED
deriving DecidableEq

/-- Append the multi-word phrases of the lexicon that occur in the text and
are not already in the match list (the phrase loops of analyzeText). -/
def addPhraseMatches (phrases : List String) (textLower : String)
    (acc : List String) : List String :=
  phrases.foldl
    (fun acc p =>
      if hasSpace p && strHas textLower p && ¬ acc.contains p then acc ++ [p]
      else acc)
    acc

/-- The positive and negative match lists of analyzeText: per-token lexicon
hits in token order, then multi-word phrase hits in lexicon order. -/
def sentimentMatches (normalizedText : String) : List String × List String :=
  let tokens := removeStopwords (tokenizeText normalizedText)
  let pos := tokens.filter (fun t => 0 < getSentimentScore t)
  let neg := tokens.filter (fun t => getSentimentScore t < 0)
  let textLower := strLower normalizedText
  (addPhraseMatches positiveSentimentWords textLower pos,
   addPhraseMatches negativeSentimentWords textLower neg)

/-- The raw score before negation and booster handling:
positive match count minus negative match count. -/
def baseRawScore (normalizedText : String) : ℚ :=
  ((sentimentMatches normalizedText).1.length : ℚ)
    - ((sentimentMatches normalizedText).2.length : ℚ)

/-- Does any booster word occur (as a substring) in the text? -/
def hasBooster (normalizedText : String) : Bool :=
  BOOSTER_WORDS.any (fun b => strHas (strLower normalizedText) b)

/-- The rawScore variable of analyzeText after the negation multiplier
(times -0.5) and the booster multiplier (times 1.5). -/
def adjustedRawScore (normalizedText : String) : ℚ :=
  let r := baseRawScore normalizedText
  let r := if checkNegation normalizedText then r * (-0.5) else r
  if hasBooster normalizedText then r * 1.5 else r

structure SentimentResult where
  label : SentimentLabel
  score : ℚ
  confidence : ℚ
  positiveMatches : List String
  negativeMatches : List String
  nutritionContext : List String
  weightedScore : ℚ
deriving DecidableEq

/-- SentimentAnalyzer.analyzeText(cleanedText, normalizedText). -/
def analyzeText (cleanedText normalizedText : String) : SentimentResult :=
  let pos := (sentimentMatches normalizedText).1
  let neg := (sentimentMatches normalizedText).2
  let nutritionContext := extractNutritionKeywords cleanedText
  let nutritionWeight : ℚ := 1 + (nutritionContext.length : ℚ) * 0.15
  let weightedScore := adjustedRawScore normalizedText * nutritionWeight
  let label : SentimentLabel :=
    if (0.8 : ℚ) < weightedScore then .POSITIVE
    else if weightedScore < (-0.8 : ℚ) then .NEGATIVE
    else if 0 < pos.length ∧ 0 < neg.length then .MIXED
    else .NEUTRAL
  let totalMatches : ℚ := (pos.length : ℚ) + (neg.length : ℚ)
  let confidence := min 1 (totalMatches / 4 + 0.3)
  let finalScore := max (-1) (min 1 (weightedScore / 3))
  ⟨label, finalScore, confidence, pos, neg, nutritionContext, weightedScore⟩

/-! ## DQM text preparation (DQMService.cleanText / normalizeText; the
YouTube service has character-identical copies) -/

/-- Is there a non-whitespace character at offset n of the list? -/
def nonWsAfter (l : List Char) (n : Nat) : Bool :=
  match l.drop n with
  | [] => false
  | d :: _ => ¬ d.isWhitespace

/-- Scanner for the URL-removal replace of cleanText (the pattern is the
scheme http, an optional s, a colon, two slashes, then at least one
non-whitespace character; matches are removed left to right,
non-overlapping, as the JS global regex replace does).  A whole match is a
run of non-whitespace characters, so once a scheme with a following
non-whitespace character is found the scanner drops characters up to the
next whitespace (the flag is true while inside a match).  When the scheme
is followed by whitespace or the end of the text the pattern does not
match there and the scan resumes at the next character, as a regex engine
would. -/
def stripUrlsAux : Bool → List Char → List Char
  | _, [] => []
  | true, c :: cs =>
    if c.isWhitespace then c :: stripUrlsAux false cs
    else stripUrlsAux true cs
  | false, c :: cs =>
    if (charsStarts "https://".toList (c :: cs) && nonWsAfter (c :: cs) 8)
        || (charsStarts "http://".toList (c :: cs) && nonWsAfter (c :: cs) 7) then
      stripUrlsAux true cs
    else c :: stripUrlsAux false cs

/-- Remove every match of the URL pattern of cleanText. -/
def stripUrls (l : List Char) : List Char :=
  stripUrlsAux false l

/-- Scanner for the mention-removal replace of cleanText (an at-sign
followed by at least one word character).  The flag is true while inside
the word-character run of a match. -/
def stripMentionsAux : Bool → List Char → List Char
  | _, [] => []
  | skip, c :: cs =>
    if skip && isWordCharJS c then stripMentionsAux true cs
    else if c == '@' && (match cs with | d :: _ => isWordCharJS d | [] => false) then
      stripMentionsAux true cs
    else c :: stripMentionsAux false cs

/-- Remove every match of the mention pattern of cleanText. -/
def stripMentions (l : List Char) : List Char :=
  stripMentionsAux false l

/-- Scanner replacing every whitespace run by a single space (the JS
global replace of a whitespace-run regex by one space).  The flag is true
right after a whitespace character was emitted. -/
def collapseWsAux : Bool → List Char → List Char
  | _, [] => []
  | inWs, c :: cs =>
    if c.isWhitespace then
      if inWs then collapseWsAux true cs else ' ' :: collapseWsAux true cs
    else c :: collapseWsAux false cs

/-- Replace every whitespace run by a single space. -/
def collapseWs (l : List Char) : List Char :=
  collapseWsAux false l

/-- DQMService.cleanText: remove URLs, remove mentions, normalize
whitespace, trim. -/
def cleanText (text : String) : String :=
  String.mk (trimChars (collapseWs (stripMentions (stripUrls text.toList))))

/-- DQMService.normalizeText: lowercase, punctuation to space, digits
removed, whitespace normalized, trim. -/
def normalizeText (text : String) : String :=
  let cs := text.toList.map Char.toLower
  let cs := cs.map (fun c => if isWordCharJS c || c.isWhitespace then c else ' ')
  let cs := cs.filter (fun c => ¬ c.isDigit)
  String.mk (trimChars (collapseWs cs))

/-- The enrichment pipeline applied to a raw body text: the Quality Gate
stores cleanText and normalizeText of the body
(DQMService.createProcessedTweet), and the Enrichment Engine then runs
analyzeText on that stored pair. -/
def enrichFromRaw (text : String) : SentimentResult :=
  analyzeText (cleanText text) (normalizeText (cleanText text))

/-! ## Quality gate decision (DQMService / YouTubeDQMService)

The rule outcomes of one item are a record of booleans, exactly the checks
object assembled by checkTweet / checkComment; score and pass decision are
pure functions of it. -/

structure DQMChecks where
  isDuplicate : Bool
  isLanguageValid : Bool
  isMinLength : Bool
  isMaxLength : Bool
  isBot : Bool
  hasValidUrls : Bool
  hasValidMentions : Bool
deriving DecidableEq

/-- scrapeConfig.QUALITY_THRESHOLD (packages/shared constants). -/
def QUALITY_THRESHOLD : ℚ := 0.6

/-- The total weight DQMService.calculateQualityScore subtracts: a fixed
weight for every failed check. -/
def dqmPenalty (c : DQMChecks) : ℚ :=
  (if c.isDuplicate then (0.5 : ℚ) else 0)
    + (if c.isLanguageValid then 0 else (0.4 : ℚ))
    + (if c.isMinLength then 0 else (0.2 : ℚ))
    + (if c.isMaxLength then 0 else (0.1 : ℚ))
    + (if c.isBot then (0.6 : ℚ) else 0)
    + (if c.hasValidUrls then 0 else (0.1 : ℚ))
    + (if c.hasValidMentions then 0 else (0.1 : ℚ))

/-- DQMService.calculateQualityScore: start from 1.0, subtract a fixed
weight for every failed check, floor at 0.  The sequential subtractions of
the source are folded into one subtracted sum. -/
def calculateQualityScore (c : DQMChecks) : ℚ :=
  max 0 (1 - dqmPenalty c)

/-- The pass decision of DQMService.checkTweet:
score at least the threshold and the language check passed. -/
def dqmPassed (c : DQMChecks) : Bool :=
  decide (QUALITY_THRESHOLD ≤ calculateQualityScore c) && c.isLanguageValid

structure YouTubeDQMChecks where
  isDuplicate : Bool
  isLanguageValid : Bool
  isMinLength : Bool
  isMaxLength : Bool
  isBot : Bool
  hasValidUrls : Bool
  hasValidMentions : Bool
  hasExcessiveEmojis : Bool
  hasRepeatedText : Bool
deriving DecidableEq

/-- YouTubeDQMService.QUALITY_THRESHOLD. -/
def YT_QUALITY_THRESHOLD : ℚ := 0.5

/-- The total weight YouTubeDQMService.calculateQualityScore subtracts.
The two YouTube-specific fields hold true when the item is acceptable
(checkEmojis and checkRepeatedText return true on acceptable items) and
are penalized when false, exactly as in the source. -/
def ytPenalty (c : YouTubeDQMChecks) : ℚ :=
  (if c.isDuplicate then (0.5 : ℚ) else 0)
    + (if c.isLanguageValid then 0 else (0.4 : ℚ))
    + (if c.isMinLength then 0 else (0.2 : ℚ))
    + (if c.isMaxLength then 0 else (0.1 : ℚ))
    + (if c.isBot then (0.6 : ℚ) else 0)
    + (if c.hasValidUrls then 0 else (0.1 : ℚ))
    + (if c.hasValidMentions then 0 else (0.1 : ℚ))
    + (if c.hasExcessiveEmojis then 0 else (0.15 : ℚ))
    + (if c.hasRepeatedText then 0 else (0.15 : ℚ))

/-- YouTubeDQMService.calculateQualityScore. -/
def ytCalculateQualityScore (c : YouTubeDQMChecks) : ℚ :=
  max 0 (1 - ytPenalty c)

/-- The pass decision of YouTubeDQMService.checkComment. -/
def ytPassed (c : YouTubeDQMChecks) : Bool :=
  decide (YT_QUALITY_THRESHOLD ≤ ytCalculateQualityScore c) && c.isLanguageValid

/-- Degrade one rule outcome of a checks record to its failing value:
isDuplicate true is the failing direction. -/
def failDuplicate (c : DQMChecks) : DQMChecks :=
  ⟨true, c.isLanguageValid, c.isMinLength, c.isMaxLength, c.isBot,
   c.hasValidUrls, c.hasValidMentions⟩

/-- Degrade the language outcome to failing. -/
def failLanguage (c : DQMChecks) : DQMChecks :=
  ⟨c.isDuplicate, false, c.isMinLength, c.isMaxLength, c.isBot,
   c.hasValidUrls, c.hasValidMentions⟩

/-- Degrade the minimum-length outcome to failing. -/
def failMinLength (c : DQMChecks) : DQMChecks :=
  ⟨c.isDuplicate, c.isLanguageValid, false, c.isMaxLength, c.isBot,
   c.hasValidUrls, c.hasValidMentions⟩

/-- Degrade the maximum-length outcome to failing. -/
def failMaxLength (c : DQMChecks) : DQMChecks :=
  ⟨c.isDuplicate, c.isLanguageValid, c.isMinLength, false, c.isBot,
   c.hasValidUrls, c.hasValidMentions⟩

/-- Degrade the bot outcome to failing (isBot true is failing). -/
def failBot (c : DQMChecks) : DQMChecks :=
  ⟨c.isDuplicate, c.isLanguageValid, c.isMinLength, c.isMaxLength, true,
   c.hasValidUrls, c.hasValidMentions⟩

/-- Degrade the URL-count outcome to failing. -/
def failUrls (c : DQMChecks) : DQMChecks :=
  ⟨c.isDuplicate, c.isLanguageValid, c.isMinLength, c.isMaxLength, c.isBot,
   false, c.hasValidMentions⟩

/-- Degrade the mention-count outcome to failing. -/
def failMentions (c : DQMChecks) : DQMChecks :=
  ⟨c.isDuplicate, c.isLanguageValid, c.isMinLength, c.isMaxLength, c.isBot,
   c.hasValidUrls, false⟩

/-- Degrade one YouTube rule outcome to its failing value, by field index
0 to 8 (duplicate, language, min length, max length, bot, urls, mentions,
emojis, repeated text); out-of-range indices change nothing. -/
def ytFailRule (i : Nat) (c : YouTubeDQMChecks) : YouTubeDQMChecks :=
  match i with
  | 0 => ⟨true, c.isLanguageValid, c.isMinLength, c.isMaxLength, c.isBot,
          c.hasValidUrls, c.hasValidMentions, c.hasExcessiveEmojis, c.hasRepeatedText⟩
  | 1 => ⟨c.isDuplicate, false, c.isMinLength, c.isMaxLength, c.isBot,
          c.hasValidUrls, c.hasValidMentions, c.hasExcessiveEmojis, c.hasRepeatedText⟩
  | 2 => ⟨c.isDuplicate, c.isLanguageValid, false, c.isMaxLength, c.isBot,
          c.hasValidUrls, c.hasValidMentions, c.hasExcessiveEmojis, c.hasRepeatedText⟩
  | 3 => ⟨c.isDuplicate, c.isLanguageValid, c.isMinLength, false, c.isBot,
          c.hasValidUrls, c.hasValidMentions, c.hasExcessiveEmojis, c.hasRepeatedText⟩
  | 4 => ⟨c.isDuplicate, c.isLanguageValid, c.isMinLength, c.isMaxLength, true,
          c.hasValidUrls, c.hasValidMentions, c.hasExcessiveEmojis, c.hasRepeatedText⟩
  | 5 => ⟨c.isDuplicate, c.isLanguageValid, c.isMinLength, c.isMaxLength, c.isBot,
          false, c.hasValidMentions, c.hasExcessiveEmojis, c.hasRepeatedText⟩
  | 6 => ⟨c.isDuplicate, c.isLanguageValid, c.isMinLength, c.isMaxLength, c.isBot,
          c.hasValidUrls, false, c.hasExcessiveEmojis, c.hasRepeatedText⟩
  | 7 => ⟨c.isDuplicate, c.isLanguageValid, c.isMinLength, c.isMaxLength, c.isBot,
          c.hasValidUrls, c.hasValidMentions, false, c.hasRepeatedText⟩
  | 8 => ⟨c.isDuplicate, c.isLanguageValid, c.isMinLength, c.isMaxLength, c.isBot,
          c.hasValidUrls, c.hasValidMentions, c.hasExcessiveEmojis, false⟩
  | _ => c

/-! ## Orchestrator item processing and run lifecycle
(ScraperOrchestrator.run / processTweet; YouTubeCollector.run /
processComment is line-for-line parallel, with commentsFound /
commentsCollected in place of tweetsFound / tweetsScraped)

The store is the list of already persisted external ids; the quality gate
decision for a newly stored item is an opaque parameter standing for
DQMService.checkTweet.  Items whose processing throws are not modelled:
per-item errors are caught and only skip the counter increments. -/

structure ItemOutcome where
  saved : Bool
  passed : Bool
  gateInvoked : Bool
deriving DecidableEq

/-- processTweet: if the external id is already stored, skip (nothing is
written and the quality gate is not invoked); otherwise persist the item
and run the quality gate on it. -/
def processTweetM (gate : String → Bool) (stored : List String)
    (tid : String) : ItemOutcome × List String :=
  if stored.contains tid then (⟨false, false, false⟩, stored)
  else (⟨true, gate tid, true⟩, stored ++ [tid])

/-- The per-keyword item loop of ScraperOrchestrator.run: for every yielded
item, in order, process it against the current store and increment the
scraped counter; increment the passed counter when the gate passed it.
Result: ((scraped, passed), final store). -/
def runBatch (gate : String → Bool) (stored : List String) :
    List String → (Nat × Nat) × List String
  | [] => ((0, 0), stored)
  | tid :: rest =>
    let o := processTweetM gate stored tid
    let r := runBatch gate o.2 rest
    ((r.1.1 + 1, r.1.2 + (if o.1.passed then 1 else 0)), r.2)

inductive RunStatus
  | RUNNING
  | COMPLETED
  | FAILED
  | CANCELLED
deriving DecidableEq

/-- The terminal update of the run record.  A counter field none means the
terminal update did not write that counter. -/
structure RunRecord where
  status : RunStatus
  tweetsFound : Option Nat
  tweetsScraped : Option Nat
  tweetsPassed : Option Nat
  errorMessage : Option String
deriving DecidableEq

/-- One keyword step of a run trace: the value the cooperative shutdown
flag had when it was polled at the top of the loop iteration, and what
searchTweets produced for the keyword (items, or a thrown error). -/
structure KeywordStep where
  sdBefore : Bool
  fetched : Except String (List String)

/-- The keyword loop of ScraperOrchestrator.run: poll the shutdown flag,
stop on shutdown, abort on a thrown error, otherwise count the yielded
items into found and process them. -/
def runLoopA (gate : String → Bool) : List String → Nat → Nat → Nat →
    List KeywordStep → Except String (Nat × Nat × Nat)
  | _, found, scraped, passed, [] => .ok (found, scraped, passed)
  | stored, found, scraped, passed, step :: rest =>
    if step.sdBefore then .ok (found, scraped, passed)
    else
      match step.fetched with
      | .error m => .error m
      | .ok ids =>
        let b := runBatch gate stored ids
        runLoopA gate b.2 (found + ids.length) (scraped + b.1.1)
          (passed + b.1.2) rest

/-- ScraperOrchestrator.run, from run creation to the terminal update.
finalSd is the value of the shutdown flag at the time of the terminal
update (the flag is only ever set, never cleared, so it is true whenever
some poll during the run saw true).  On a thrown error the catch block
records FAILED and the error message and writes no counters; otherwise
CANCELLED on shutdown, else COMPLETED exactly when at least one item was
counted as scraped, else FAILED, with all three counters written. -/
def orchestratorRun (gate : String → Bool) (stored : List String)
    (steps : List KeywordStep) (finalSd : Bool) : RunRecord :=
  match runLoopA gate stored 0 0 0 steps with
  | .error m => ⟨.FAILED, none, none, none, some m⟩
  | .ok (f, s, p) =>
    ⟨if finalSd then .CANCELLED else if 0 < s then .COMPLETED else .FAILED,
     some f, some s, some p, none⟩

/-- Does the keyword loop run to its end (or to a shutdown poll) without a
thrown error?  False exactly when a step throws before any shutdown poll
returns true. -/
def cleanTrace : List KeywordStep → Bool
  | [] => true
  | step :: rest =>
    step.sdBefore ||
      (match step.fetched with
       | .error _ => false
       | .ok _ => cleanTrace rest)

/-- The total number of items yielded by the keyword steps the loop
actually processes (those before a shutdown poll or a thrown error). -/
def foundOfSteps : List KeywordStep → Nat
  | [] => 0
  | step :: rest =>
    if step.sdBefore then 0
    else
      match step.fetched with
      | .error _ => 0
      | .ok ids => ids.length + foundOfSteps rest

/-! ## Enrichment rows (ProcessedTweet / ProcessedYouTubeComment)

The placeholder row the quality gate creates, the pending-backlog
selection predicate of NLPOrchestrator.processPendingTweets (and of
YouTubeNLPOrchestrator.processPendingComments), and the mutation performed
by SentimentAnalyzer.analyzeTweet. -/

structure ProcessedRow where
  cleanedText : String
  normalizedText : String
  sentimentLabel : SentimentLabel
  sentimentScore : ℚ
deriving DecidableEq

/-- DQMService.createProcessedTweet: placeholder values NEUTRAL and 0. -/
def placeholderRow (cleaned normalized : String) : ProcessedRow :=
  ⟨cleaned, normalized, .NEUTRAL, 0⟩

/-- The where-clause of the pending-backlog query of
NLPOrchestrator.processPendingTweets: sentimentScore 0.0 and
sentimentLabel NEUTRAL. -/
def isPendingRow (r : ProcessedRow) : Bool :=
  decide (r.sentimentScore = 0) && decide (r.sentimentLabel = .NEUTRAL)

/-- SentimentAnalyzer.analyzeTweet: run analyzeText on the stored text
pair and write the resulting label and score into the row. -/
def applyEnrichment (r : ProcessedRow) : ProcessedRow :=
  let res := analyzeText r.cleanedText r.normalizedText
  ⟨r.cleanedText, r.normalizedText, res.label, res.score⟩

/-! ## TwitterScraper.searchTweets retry loop -/

/-- TwitterScraper.MAX_RETRIES. -/
def MAX_RETRIES : Nat := 3

/-- TwitterScraper.RATE_LIMIT_DELAY, in milliseconds. -/
def RATE_LIMIT_DELAY : Nat := 60000 * 2

/-- TwitterScraper.isRateLimitError: classify a thrown error by the
markers its message contains. -/
def isRateLimitError (msg : String) : Bool :=
  strHas msg "rate limit" || strHas msg "too many requests"
    || strHas msg "429" || strHas msg "Please wait a few moments"

/-- The retry loop of searchTweets.  attempts gives the outcome of the
k-th call to searchTweetsInternal (items, or a thrown error message).
budget is MAX_RETRIES minus the current value of the retries variable of
the source, so the loop guard retries < MAX_RETRIES is budget positive,
and after a detected rate-limit error the new retries value is
MAX_RETRIES - budget for the decremented budget, which is the exponent
the source computes.  Returns the overall outcome together with the list
of computed backoff delays (before jitter), in order. -/
def searchGo (attempts : Nat → Except String (List String)) :
    Nat → Nat → Option String → List Nat →
    Except String (List String) × List Nat
  | 0, _, lastErr, delays =>
    (.error (lastErr.getD "Failed to scrape tweets after maximum retries"),
     delays)
  | budget + 1, call, _lastErr, delays =>
    match attempts call with
    | .ok ts => (.ok ts, delays)
    | .error m =>
      if isRateLimitError m then
        searchGo attempts budget (call + 1) (some m)
          (delays ++ [2 ^ (MAX_RETRIES - budget) * RATE_LIMIT_DELAY])
      else (.error m, delays)

/-- TwitterScraper.searchTweets for one unit of work (one keyword). -/
def searchTweetsModel (attempts : Nat → Except String (List String)) :
    Except String (List String) × List Nat :=
  searchGo attempts MAX_RETRIES 0 none []

/-! ## TwitterScraper.searchTweetsInternal scroll loop -/

/-- TwitterScraper maxScrollAttempts (searchTweetsInternal). -/
def maxScrollAttempts : Nat := 2

/-- The page as the loop observes it at one iteration: the tweet ids the
extraction strategies would return, the scroll height, and whether
isCurrentlyRateLimited detects a rate-limit banner. -/
structure PageState where
  items : List String
  height : Nat
  rateLimited : Bool

/-- The dedup-append of the scroll loop: push each newly extracted tweet
that is not already collected. -/
def addUnique (acc new : List String) : List String :=
  new.foldl (fun acc t => if acc.contains t then acc else acc ++ [t]) acc

structure ScrollSt where
  i : Nat
  tweets : List String
  attempts : Nat
deriving DecidableEq

inductive ScrollOut
  | runOn (s : ScrollSt)
  | done (res : List String)
  | thrown (msg : String)
deriving DecidableEq

/-- One iteration of the scroll loop of searchTweetsInternal, including
its while-condition: stop when enough tweets are collected or the
stagnation counter reached the bound (returning the first maxTweets
collected tweets); otherwise extract and dedup-append, stop when the
requested count is reached, throw when a rate-limit banner is visible,
else scroll, and increment the stagnation counter if the page height did
not change or reset it to zero if it did. -/
def scrollStep (page : Nat → PageState) (maxTweets : Nat)
    (s : ScrollSt) : ScrollOut :=
  if ¬ (s.tweets.length < maxTweets ∧ s.attempts < maxScrollAttempts) then
    .done (s.tweets.take maxTweets)
  else if maxTweets ≤ (addUnique s.tweets (page s.i).items).length then
    .done ((addUnique s.tweets (page s.i).items).take maxTweets)
  else if (page s.i).rateLimited then
    .thrown "Rate limit detected during scrolling"
  else if (page (s.i + 1)).height = (page s.i).height then
    .runOn ⟨s.i + 1, addUnique s.tweets (page s.i).items, s.attempts + 1⟩
  else
    .runOn ⟨s.i + 1, addUnique s.tweets (page s.i).items, 0⟩

/-- Iterate the scroll loop.  The loop of the source has no intrinsic
iteration bound besides its stagnation counter, so the iteration count is
an explicit fuel; none means the fuel ran out before the loop finished. -/
def scrollRun (page : Nat → PageState) (maxTweets : Nat) :
    Nat → ScrollSt → Option (Except String (List String))
  | 0, _ => none
  | fuel + 1, s =>
    match scrollStep page maxTweets s with
    | .done r => some (.ok r)
    | .thrown m => some (.error m)
    | .runOn next => scrollRun page maxTweets fuel next

/-! ## Helper lemmas -/

/-- A weight-or-zero conditional is at most the weight. -/
theorem iteW_le (b : Bool) (w : ℚ) (hw : 0 ≤ w) : (if b then w else 0) ≤ w := by
  split <;> simp [hw]

/-- A zero-or-weight conditional is at most the weight. -/
theorem iteZ_le (b : Bool) (w : ℚ) (hw : 0 ≤ w) : (if b then 0 else w) ≤ w := by
  split <;> simp [hw]

/-- A weight-or-zero conditional is nonnegative. -/
theorem iteW_nonneg (b : Bool) (w : ℚ) (hw : 0 ≤ w) : 0 ≤ if b then w else 0 := by
  split <;> simp [hw]

/-- A zero-or-weight conditional is nonnegative. -/
theorem iteZ_nonneg (b : Bool) (w : ℚ) (hw : 0 ≤ w) : 0 ≤ if b then 0 else w := by
  split <;> simp [hw]

/-- The Twitter penalty sum is nonnegative. -/
theorem dqmPenalty_nonneg (c : DQMChecks) : 0 ≤ dqmPenalty c := by
  unfold dqmPenalty
  have h1 := iteW_nonneg c.isDuplicate (0.5 : ℚ) (by norm_num)
  have h2 := iteZ_nonneg c.isLanguageValid (0.4 : ℚ) (by norm_num)
  have h3 := iteZ_nonneg c.isMinLength (0.2 : ℚ) (by norm_num)
  have h4 := iteZ_nonneg c.isMaxLength (0.1 : ℚ) (by norm_num)
  have h5 := iteW_nonneg c.isBot (0.6 : ℚ) (by norm_num)
  have h6 := iteZ_nonneg c.hasValidUrls (0.1 : ℚ) (by norm_num)
  have h7 := iteZ_nonneg c.hasValidMentions (0.1 : ℚ) (by norm_num)
  linarith

/-- The YouTube penalty sum is nonnegative. -/
theorem ytPenalty_nonneg (c : YouTubeDQMChecks) : 0 ≤ ytPenalty c := by
  unfold ytPenalty
  have h1 := iteW_nonneg c.isDuplicate (0.5 : ℚ) (by norm_num)
  have h2 := iteZ_nonneg c.isLanguageValid (0.4 : ℚ) (by norm_num)
  have h3 := iteZ_nonneg c.isMinLength (0.2 : ℚ) (by norm_num)
  have h4 := iteZ_nonneg c.isMaxLength (0.1 : ℚ) (by norm_num)
  have h5 := iteW_nonneg c.isBot (0.6 : ℚ) (by norm_num)
  have h6 := iteZ_nonneg c.hasValidUrls (0.1 : ℚ) (by norm_num)
  have h7 := iteZ_nonneg c.hasValidMentions (0.1 : ℚ) (by norm_num)
  have h8 := iteZ_nonneg c.hasExcessiveEmojis (0.15 : ℚ) (by norm_num)
  have h9 := iteZ_nonneg c.hasRepeatedText (0.15 : ℚ) (by norm_num)
  linarith

/-- A larger penalty can only lower the Twitter quality score. -/
theorem score_mono {c d : DQMChecks} (h : dqmPenalty c ≤ dqmPenalty d) :
    calculateQualityScore d ≤ calculateQualityScore c := by
  unfold calculateQualityScore
  exact max_le_max le_rfl (by linarith)

/-- A larger penalty can only lower the YouTube quality score. -/
theorem yt_score_mono {c d : YouTubeDQMChecks} (h : ytPenalty c ≤ ytPenalty d) :
    ytCalculateQualityScore d ≤ ytCalculateQualityScore c := by
  unfold ytCalculateQualityScore
  exact max_le_max le_rfl (by linarith)

/-! ## C4 -/

/-- C4: for every combination of rule outcomes, on both platforms, the
quality gate passes an item only if the language rule passed: language
failing forces passed to be false whatever the other outcomes and the
resulting quality score are. -/
theorem dqm_language_veto :
    (∀ c : DQMChecks, c.isLanguageValid = false → dqmPassed c = false) ∧
    (∀ y : YouTubeDQMChecks, y.isLanguageValid = false → ytPassed y = false) := by
  constructor
  · intro c h
    simp [dqmPassed, h]
  · intro y h
    simp [ytPassed, h]

/-- Witness for C4 at a concrete checks record whose every other rule
passes and whose score is maximal apart from the language weight. -/
theorem dqm_language_veto_witness :
    (DQMChecks.mk false false true true false true true).isLanguageValid = false ∧
    dqmPassed (DQMChecks.mk false false true true false true true) = false ∧
    (YouTubeDQMChecks.mk false false true true false true true true true).isLanguageValid
        = false ∧
    ytPassed (YouTubeDQMChecks.mk false false true true false true true true true)
        = false :=
  ⟨rfl, dqm_language_veto.1 (DQMChecks.mk false false true true false true true) rfl,
   rfl, dqm_language_veto.2
     (YouTubeDQMChecks.mk false false true true false true true true true) rfl⟩

/-! ## C5 -/

/-- C5: on both platforms the quality score is always within the interval
from 0 to 1, and degrading any single rule outcome from passing to failing
(all other outcomes fixed) never increases the score.  The YouTube half
covers its nine rules through the rule index of ytFailRule. -/
theorem dqm_score_bounds_and_mono :
    (∀ c : DQMChecks,
      0 ≤ calculateQualityScore c ∧ calculateQualityScore c ≤ 1 ∧
      calculateQualityScore (failDuplicate c) ≤ calculateQualityScore c ∧
      calculateQualityScore (failLanguage c) ≤ calculateQualityScore c ∧
      calculateQualityScore (failMinLength c) ≤ calculateQualityScore c ∧
      calculateQualityScore (failMaxLength c) ≤ calculateQualityScore c ∧
      calculateQualityScore (failBot c) ≤ calculateQualityScore c ∧
      calculateQualityScore (failUrls c) ≤ calculateQualityScore c ∧
      calculateQualityScore (failMentions c) ≤ calculateQualityScore c) ∧
    (∀ (y : YouTubeDQMChecks) (i : Nat),
      0 ≤ ytCalculateQualityScore y ∧ ytCalculateQualityScore y ≤ 1 ∧
      ytCalculateQualityScore (ytFailRule i y) ≤ ytCalculateQualityScore y) := by
  constructor
  · intro c
    have hpen := dqmPenalty_nonneg c
    refine ⟨le_max_left 0 _, max_le (by norm_num) (by linarith), ?_, ?_, ?_, ?_, ?_, ?_, ?_⟩
    · apply score_mono
      simp [dqmPenalty, failDuplicate]
      have h := iteW_le c.isDuplicate (0.5 : ℚ) (by norm_num)
      linarith
    · apply score_mono
      simp [dqmPenalty, failLanguage]
      have h := iteZ_le c.isLanguageValid (0.4 : ℚ) (by norm_num)
      linarith
    · apply score_mono
      simp [dqmPenalty, failMinLength]
      have h := iteZ_le c.isMinLength (0.2 : ℚ) (by norm_num)
      linarith
    · apply score_mono
      simp [dqmPenalty, failMaxLength]
      have h := iteZ_le c.isMaxLength (0.1 : ℚ) (by norm_num)
      linarith
    · apply score_mono
      simp [dqmPenalty, failBot]
      have h := iteW_le c.isBot (0.6 : ℚ) (by norm_num)
      linarith
    · apply score_mono
      simp [dqmPenalty, failUrls]
      have h := iteZ_le c.hasValidUrls (0.1 : ℚ) (by norm_num)
      linarith
    · apply score_mono
      simp [dqmPenalty, failMentions]
      have h := iteZ_le c.hasValidMentions (0.1 : ℚ) (by norm_num)
      linarith
  · intro y i
    have hpen := ytPenalty_nonneg y
    refine ⟨le_max_left 0 _, max_le (by norm_num) (by linarith), ?_⟩
    rcases i with _ | _ | _ | _ | _ | _ | _ | _ | _ | i
    · apply yt_score_mono
      simp [ytPenalty, ytFailRule]
      have h := iteW_le y.isDuplicate (0.5 : ℚ) (by norm_num)
      linarith
    · apply yt_score_mono
      simp [ytPenalty, ytFailRule]
      have h := iteZ_le y.isLanguageValid (0.4 : ℚ) (by norm_num)
      linarith
    · apply yt_score_mono
      simp [ytPenalty, ytFailRule]
      have h := iteZ_le y.isMinLength (0.2 : ℚ) (by norm_num)
      linarith
    · apply yt_score_mono
      simp [ytPenalty, ytFailRule]
      have h := iteZ_le y.isMaxLength (0.1 : ℚ) (by norm_num)
      linarith
    · apply yt_score_mono
      simp [ytPenalty, ytFailRule]
      have h := iteW_le y.isBot (0.6 : ℚ) (by norm_num)
      linarith
    · apply yt_score_mono
      simp [ytPenalty, ytFailRule]
      have h := iteZ_le y.hasValidUrls (0.1 : ℚ) (by norm_num)
      linarith
    · apply yt_score_mono
      simp [ytPenalty, ytFailRule]
      have h := iteZ_le y.hasValidMentions (0.1 : ℚ) (by norm_num)
      linarith
    · apply yt_score_mono
      simp [ytPenalty, ytFailRule]
      have h := iteZ_le y.hasExcessiveEmojis (0.15 : ℚ) (by norm_num)
      linarith
    · apply yt_score_mono
      simp [ytPenalty, ytFailRule]
      have h := iteZ_le y.hasRepeatedText (0.15 : ℚ) (by norm_num)
      linarith
    · apply yt_score_mono
      simp [ytFailRule]

/-! ## C1 -/

/-- The scraped counter of one keyword batch counts every yielded item,
whether or not its id was already stored: the increment of the source
follows every processTweet call that does not throw. -/
theorem runBatch_scraped (gate : String → Bool) :
    ∀ (ids : List String) (stored : List String),
      (runBatch gate stored ids).1.1 = ids.length
  | [], _ => rfl
  | _ :: rest, stored => by
    simp [runBatch, runBatch_scraped gate rest]

/-- C1 (amended): processing an item whose external id is already stored
creates no RawItem, does not invoke the Quality Gate, counts as not
passed, and leaves the store unchanged; but the run loop still increments
the scraped counter (tweetsScraped / commentsCollected) once per yielded
item, duplicates included, so a duplicate item contributes to both the
found and the acquired counter. -/
theorem dedup_skip_and_counters (gate : String → Bool) (stored : List String)
    (tid : String) (h : stored.contains tid = true) :
    (processTweetM gate stored tid).1.saved = false ∧
    (processTweetM gate stored tid).1.gateInvoked = false ∧
    (processTweetM gate stored tid).1.passed = false ∧
    (processTweetM gate stored tid).2 = stored ∧
    ∀ ids : List String, (runBatch gate stored ids).1.1 = ids.length := by
  have hmem : tid ∈ stored := by simpa using h
  refine ⟨?_, ?_, ?_, ?_, fun ids => runBatch_scraped gate ids stored⟩ <;>
    simp [processTweetM, hmem]

/-- Witness for C1 (amended) on a store already holding the processed id. -/
theorem dedup_skip_and_counters_witness :
    (["t1"] : List String).contains "t1" = true ∧
    (processTweetM (fun _ => true) ["t1"] "t1").1.saved = false ∧
    (runBatch (fun _ => true) ["t1"] ["t1"]).1.1 = 1 :=
  ⟨by decide,
   (dedup_skip_and_counters (fun _ => true) ["t1"] "t1" (by decide)).1,
   (dedup_skip_and_counters (fun _ => true) ["t1"] "t1" (by decide)).2.2.2.2 ["t1"]⟩

/-- C1 counterexample: one keyword yields one item whose id is already
stored.  Nothing is saved and the gate is not invoked, yet the batch
reports scraped = 1: the duplicate item does contribute to the acquired
counter, contrary to the claim that it only contributes to found. -/
theorem dedup_counters_cex :
    (processTweetM (fun _ => true) ["t1"] "t1").1 =
      ItemOutcome.mk false false false ∧
    (processTweetM (fun _ => true) ["t1"] "t1").2 = ["t1"] ∧
    (runBatch (fun _ => true) ["t1"] ["t1"]).1.1 = 1 ∧
    (runBatch (fun _ => true) ["t1"] ["t1"]).1.1 ≠ 0 := by
  refine ⟨rfl, rfl, rfl, ?_⟩
  decide

/-! ## C3 -/

/-- On a clean trace the keyword loop returns ok, and both the found and
the scraped totals grow by exactly the number of items the processed steps
yielded. -/
theorem runLoopA_clean (gate : String → Bool) :
    ∀ (steps : List KeywordStep), cleanTrace steps = true →
      ∀ (stored : List String) (found scraped passed : Nat),
        ∃ p, runLoopA gate stored found scraped passed steps =
          .ok (found + foundOfSteps steps, scraped + foundOfSteps steps, p) := by
  intro steps
  induction steps with
  | nil =>
    intro _ stored found scraped passed
    exact ⟨passed, by simp [runLoopA, foundOfSteps]⟩
  | cons step rest ih =>
    intro h stored found scraped passed
    by_cases hsd : step.sdBefore = true
    · exact ⟨passed, by simp [runLoopA, foundOfSteps, hsd]⟩
    · simp only [Bool.not_eq_true] at hsd
      rcases hf : step.fetched with m | ids
      · rw [cleanTrace, hsd, hf] at h
        simp at h
      · rw [cleanTrace, hsd, hf] at h
        simp only [Bool.false_or] at h
        obtain ⟨p, hp⟩ :=
          ih h (runBatch gate stored ids).2 (found + ids.length)
            (scraped + (runBatch gate stored ids).1.1)
            (passed + (runBatch gate stored ids).1.2)
        refine ⟨p, ?_⟩
        have hfnd : foundOfSteps (step :: rest) = ids.length + foundOfSteps rest := by
          rw [foundOfSteps, if_neg (by simp [hsd]), hf]
        rw [hfnd, runLoopA, if_neg (by simp [hsd]), hf]
        show runLoopA gate (runBatch gate stored ids).2 (found + ids.length)
            (scraped + (runBatch gate stored ids).1.1)
            (passed + (runBatch gate stored ids).1.2) rest = _
        rw [hp, runBatch_scraped gate ids stored]
        simp [Nat.add_assoc]

/-- On a trace that throws before any shutdown poll returns true, the
keyword loop surfaces the error. -/
theorem runLoopA_error (gate : String → Bool) :
    ∀ (steps : List KeywordStep), cleanTrace steps = false →
      ∀ (stored : List String) (found scraped passed : Nat),
        ∃ m, runLoopA gate stored found scraped passed steps = .error m := by
  intro steps
  induction steps with
  | nil =>
    intro h
    simp [cleanTrace] at h
  | cons step rest ih =>
    intro h stored found scraped passed
    rw [cleanTrace] at h
    rcases Bool.or_eq_false_iff.mp h with ⟨hsd, hrest⟩
    rcases hf : step.fetched with m | ids
    · exact ⟨m, by rw [runLoopA, if_neg (by simp [hsd]), hf]⟩
    · rw [hf] at hrest
      obtain ⟨m, hm⟩ :=
        ih hrest (runBatch gate stored ids).2 (found + ids.length)
          (scraped + (runBatch gate stored ids).1.1)
          (passed + (runBatch gate stored ids).1.2)
      exact ⟨m, by rw [runLoopA, if_neg (by simp [hsd]), hf]; exact hm⟩

/-- C3 (amended): when the keyword loop finishes without a thrown error
(possibly cut short by a shutdown poll), the terminal update records the
found and scraped totals of the processed steps and sets CANCELLED
whenever the shutdown flag is set at terminal time, else COMPLETED exactly
when at least one item was counted, else FAILED.  When a step throws, the
terminal update sets FAILED with the error message and records no
counters, even if the shutdown flag is set. -/
theorem run_terminal_status (gate : String → Bool) (stored : List String)
    (steps : List KeywordStep) (finalSd : Bool) :
    (cleanTrace steps = true →
      (orchestratorRun gate stored steps finalSd).status =
        (if finalSd then RunStatus.CANCELLED
         else if 0 < foundOfSteps steps then RunStatus.COMPLETED
         else RunStatus.FAILED) ∧
      (orchestratorRun gate stored steps finalSd).tweetsFound =
        some (foundOfSteps steps) ∧
      (orchestratorRun gate stored steps finalSd).tweetsScraped =
        some (foundOfSteps steps) ∧
      (orchestratorRun gate stored steps finalSd).errorMessage = none) ∧
    (cleanTrace steps = false →
      (orchestratorRun gate stored steps finalSd).status = RunStatus.FAILED ∧
      (orchestratorRun gate stored steps finalSd).tweetsFound = none ∧
      (orchestratorRun gate stored steps finalSd).tweetsScraped = none ∧
      (orchestratorRun gate stored steps finalSd).errorMessage ≠ none) := by
  constructor
  · intro h
    obtain ⟨p, hp⟩ := runLoopA_clean gate steps h stored 0 0 0
    simp only [Nat.zero_add] at hp
    simp [orchestratorRun, hp]
  · intro h
    obtain ⟨m, hm⟩ := runLoopA_error gate steps h stored 0 0 0
    simp [orchestratorRun, hm]

/-- Witness for C3 (amended): a one-keyword clean run with one item and
the shutdown flag clear completes with its counters recorded. -/
theorem run_terminal_status_witness :
    cleanTrace [KeywordStep.mk false (.ok ["a"])] = true ∧
    (orchestratorRun (fun _ => true) [] [KeywordStep.mk false (.ok ["a"])]
        false).status = RunStatus.COMPLETED :=
  ⟨by decide,
   by
    have h :=
      (run_terminal_status (fun _ => true) [] [KeywordStep.mk false (.ok ["a"])]
          false).1 (by decide)
    rw [h.1]
    decide⟩

/-- C3 counterexample: a run whose first keyword yields two items and
whose second keyword throws, while the shutdown flag is set by terminal
time.  The terminal update reports FAILED, not CANCELLED, and records no
found counter at all, although two items had been found; the claim
requires CANCELLED and a recorded found counter. -/
theorem run_terminal_status_cex :
    (orchestratorRun (fun _ => true) []
        [KeywordStep.mk false (.ok ["a", "b"]),
         KeywordStep.mk false (.error "rate limit")] true).status =
      RunStatus.FAILED ∧
    (orchestratorRun (fun _ => true) []
        [KeywordStep.mk false (.ok ["a", "b"]),
         KeywordStep.mk false (.error "rate limit")] true).status ≠
      RunStatus.CANCELLED ∧
    (orchestratorRun (fun _ => true) []
        [KeywordStep.mk false (.ok ["a", "b"]),
         KeywordStep.mk false (.error "rate limit")] true).tweetsFound = none ∧
    (orchestratorRun (fun _ => true) []
        [KeywordStep.mk false (.ok ["a", "b"]),
         KeywordStep.mk false (.error "rate limit")] true).errorMessage =
      some "rate limit" := by
  refine ⟨rfl, ?_, rfl, rfl⟩
  decide

/-! ## C2 -/

/-- When the base raw score (positive count minus negative count) is zero,
the negation, booster and nutrition-weight multipliers keep every derived
score at zero, and the label falls through to the MIXED / NEUTRAL branch. -/
theorem rawZero_result (cleaned nt : String) (hbase : baseRawScore nt = 0) :
    (analyzeText cleaned nt).weightedScore = 0 ∧
    (analyzeText cleaned nt).score = 0 ∧
    (analyzeText cleaned nt).label =
      (if 0 < (sentimentMatches nt).1.length ∧ 0 < (sentimentMatches nt).2.length
       then SentimentLabel.MIXED else SentimentLabel.NEUTRAL) := by
  have hadj : adjustedRawScore nt = 0 := by
    unfold adjustedRawScore
    rw [hbase]
    split <;> split <;> norm_num
  have hws : (analyzeText cleaned nt).weightedScore = 0 := by
    simp [analyzeText, hadj]
  refine ⟨hws, ?_, ?_⟩
  · simp only [analyzeText, hadj]
    norm_num
  · simp only [analyzeText, hadj]
    norm_num

/-- C2 (amended): after an enrichment write, the row is selected again by
the pending-backlog query exactly when the analyzer result is itself the
placeholder pair NEUTRAL and 0; rows enriched to any other result are
never re-selected, but a row whose analysis result is the placeholder pair
stays selectable and is re-written by every later invocation. -/
theorem enrichment_pending_iff (r : ProcessedRow) :
    isPendingRow (applyEnrichment r) = true ↔
      ((analyzeText r.cleanedText r.normalizedText).label = SentimentLabel.NEUTRAL ∧
       (analyzeText r.cleanedText r.normalizedText).score = 0) := by
  simp only [isPendingRow, applyEnrichment, Bool.and_eq_true, decide_eq_true_eq]
  tauto

/-- C2 counterexample: a pending placeholder row with empty text analyzes
to NEUTRAL with score zero, so the row the Enrichment Engine has just
written is still matched by the pending-backlog query: an already-enriched
row is selected and re-written by the next enrichment invocation,
contradicting the exactly-once claim. -/
theorem enrichment_reselect_cex :
    applyEnrichment (placeholderRow "" "") = placeholderRow "" "" ∧
    isPendingRow (applyEnrichment (placeholderRow "" "")) = true := by
  have hm : sentimentMatches "" = ([], []) := by decide
  have hbase : baseRawScore "" = 0 := by
    simp [baseRawScore, hm]
  obtain ⟨hws, hsc, hlb⟩ := rawZero_result "" "" hbase
  rw [hm] at hlb
  simp only [List.length_nil] at hlb
  have hlb2 : (analyzeText "" "").label = SentimentLabel.NEUTRAL := by
    rw [hlb]
    norm_num
  constructor
  · show (⟨"", "", (analyzeText "" "").label, (analyzeText "" "").score⟩ : ProcessedRow) = _
    rw [hlb2, hsc]
    rfl
  · simp [isPendingRow, applyEnrichment, placeholderRow, hlb2, hsc]

/-! ## C10 -/

/-- C10: whenever the positive and negative match lists have equal length
the raw score is zero and stays zero through the negation, booster and
contextual-weight multipliers, so the returned normalized score is exactly
zero, and the label is MIXED when both match lists are non-empty and
NEUTRAL otherwise. -/
theorem balanced_matches_zero (cleaned nt : String)
    (h : (sentimentMatches nt).1.length = (sentimentMatches nt).2.length) :
    (analyzeText cleaned nt).weightedScore = 0 ∧
    (analyzeText cleaned nt).score = 0 ∧
    ((sentimentMatches nt).1 ≠ [] → (sentimentMatches nt).2 ≠ [] →
      (analyzeText cleaned nt).label = SentimentLabel.MIXED) ∧
    ((sentimentMatches nt).1 = [] ∨ (sentimentMatches nt).2 = [] →
      (analyzeText cleaned nt).label = SentimentLabel.NEUTRAL) := by
  have hbase : baseRawScore nt = 0 := by
    rw [baseRawScore, h]
    ring
  obtain ⟨hws, hsc, hlb⟩ := rawZero_result cleaned nt hbase
  refine ⟨hws, hsc, ?_, ?_⟩
  · intro h1 h2
    rw [hlb, if_pos]
    constructor <;> simpa [List.length_pos] using ‹_›
  · intro h1
    rw [hlb, if_neg]
    rcases h1 with h1 | h1 <;> simp [h1]

/-- Witness for C10 on a two-token text with one positive and one negative
lexicon hit. -/
theorem balanced_matches_zero_witness :
    (sentimentMatches "bagus buruk").1.length =
      (sentimentMatches "bagus buruk").2.length ∧
    (analyzeText "bagus buruk" "bagus buruk").score = 0 ∧
    (analyzeText "bagus buruk" "bagus buruk").label = SentimentLabel.MIXED :=
  ⟨by decide,
   (balanced_matches_zero "bagus buruk" "bagus buruk" (by decide)).2.1,
   (balanced_matches_zero "bagus buruk" "bagus buruk" (by decide)).2.2.1
     (by decide) (by decide)⟩

/-! ## C6 -/

/-- The sentiment computations on the two texts of the negation example,
shared by the theorems below. -/
theorem negationExample_values :
    sentimentMatches "makanan tidak sehat" =
      (["sehat"], ["makanan tidak sehat"]) ∧
    checkNegation "makanan tidak sehat" = true ∧
    adjustedRawScore "makanan tidak sehat" = 0 ∧
    sentimentMatches "makanan sehat" = (["sehat"], []) ∧
    checkNegation "makanan sehat" = false ∧
    adjustedRawScore "makanan sehat" = 1 := by
  have hm1 : sentimentMatches "makanan tidak sehat" =
      (["sehat"], ["makanan tidak sehat"]) := by decide
  have hn1 : checkNegation "makanan tidak sehat" = true := by decide
  have hb1 : hasBooster "makanan tidak sehat" = false := by decide
  have hm2 : sentimentMatches "makanan sehat" = (["sehat"], []) := by decide
  have hn2 : checkNegation "makanan sehat" = false := by decide
  have hb2 : hasBooster "makanan sehat" = false := by decide
  refine ⟨hm1, hn1, ?_, hm2, hn2, ?_⟩
  · unfold adjustedRawScore baseRawScore
    rw [hm1, hn1, hb1]
    norm_num
  · unfold adjustedRawScore baseRawScore
    rw [hm2, hn2, hb2]
    norm_num

/-- C6 (amended): the raw score of the negated text makanan tidak sehat is
zero, not minus one half of the un-negated raw score.  The word-level
positive hit sehat is cancelled by the phrase-level negative hit of the
full lexicon phrase makanan tidak sehat, so the pre-negation raw score is
zero; negation is detected and the times minus one half dampening is
applied, but to zero.  The un-negated text makanan sehat has raw score
one. -/
theorem negation_raw_amended :
    sentimentMatches "makanan tidak sehat" =
      (["sehat"], ["makanan tidak sehat"]) ∧
    checkNegation "makanan tidak sehat" = true ∧
    adjustedRawScore "makanan tidak sehat" = 0 ∧
    sentimentMatches "makanan sehat" = (["sehat"], []) ∧
    checkNegation "makanan sehat" = false ∧
    adjustedRawScore "makanan sehat" = 1 :=
  negationExample_values

/-- C6 counterexample: the raw sentiment score of makanan tidak sehat is
zero, which is not minus one half times the raw score of makanan sehat. -/
theorem negation_raw_cex :
    adjustedRawScore "makanan tidak sehat" = 0 ∧
    adjustedRawScore "makanan sehat" = 1 ∧
    adjustedRawScore "makanan tidak sehat" ≠
      (-0.5 : ℚ) * adjustedRawScore "makanan sehat" := by
  obtain ⟨_, _, h1, _, _, h2⟩ := negationExample_values
  refine ⟨h1, h2, ?_⟩
  rw [h1, h2]
  norm_num

/-! ## C7 -/

/-- The raw body text of the worked scenario. -/
def C7text : String :=
  "Makanan sangat bagus, anak saya sehat dan tumbuh dengan baik berkat program MBG"

set_option maxRecDepth 4000 in
/-- The full enrichment-pipeline output on the worked-scenario text,
shared by the theorems below. -/
theorem workedScenario_values :
    (enrichFromRaw C7text).positiveMatches =
      ["bagus", "sehat", "tumbuh", "baik", "sangat bagus"] ∧
    (enrichFromRaw C7text).negativeMatches = [] ∧
    (enrichFromRaw C7text).nutritionContext =
      ["makan", "makanan", "sehat", "tumbuh", "anak", "mbg", "program"] ∧
    (enrichFromRaw C7text).weightedScore = (15.375 : ℚ) ∧
    (enrichFromRaw C7text).label = SentimentLabel.POSITIVE ∧
    (enrichFromRaw C7text).score = 1 ∧
    (enrichFromRaw C7text).confidence = 1 := by
  have hclean : cleanText C7text = C7text := by decide
  have hnorm : normalizeText C7text =
      "makanan sangat bagus anak saya sehat dan tumbuh dengan baik berkat program mbg" := by
    decide
  have hm : sentimentMatches
      "makanan sangat bagus anak saya sehat dan tumbuh dengan baik berkat program mbg" =
      (["bagus", "sehat", "tumbuh", "baik", "sangat bagus"], []) := by decide
  have hneg : checkNegation
      "makanan sangat bagus anak saya sehat dan tumbuh dengan baik berkat program mbg" =
      false := by decide
  have hboo : hasBooster
      "makanan sangat bagus anak saya sehat dan tumbuh dengan baik berkat program mbg" =
      true := by decide
  have hctx : extractNutritionKeywords C7text =
      ["makan", "makanan", "sehat", "tumbuh", "anak", "mbg", "program"] := by decide
  have hadj : adjustedRawScore
      "makanan sangat bagus anak saya sehat dan tumbuh dengan baik berkat program mbg" =
      (7.5 : ℚ) := by
    unfold adjustedRawScore baseRawScore
    rw [hm, hneg, hboo]
    norm_num
  unfold enrichFromRaw
  rw [hclean, hnorm]
  unfold analyzeText
  rw [hm, hctx, hadj]
  norm_num

/-- C7 (amended): on the worked-scenario input the pipeline produces
positive matches bagus, sehat, tumbuh, baik and the phrase sangat bagus
(five matches; sangat alone is not in the lexicon), no negative matches,
booster applied with no negation for an adjusted raw score of 7.5, seven
contextual hits (makan, makanan, sehat, tumbuh, anak, mbg, program) giving
weight 2.05 and weighted score 15.375, a final normalized score clamped to
1, label POSITIVE, and confidence 1. -/
theorem worked_scenario_amended :
    (enrichFromRaw C7text).positiveMatches =
      ["bagus", "sehat", "tumbuh", "baik", "sangat bagus"] ∧
    (enrichFromRaw C7text).negativeMatches = [] ∧
    (enrichFromRaw C7text).nutritionContext =
      ["makan", "makanan", "sehat", "tumbuh", "anak", "mbg", "program"] ∧
    (enrichFromRaw C7text).weightedScore = (15.375 : ℚ) ∧
    (enrichFromRaw C7text).label = SentimentLabel.POSITIVE ∧
    (enrichFromRaw C7text).score = 1 ∧
    (enrichFromRaw C7text).confidence = 1 :=
  workedScenario_values

/-- C7 counterexample: on the worked-scenario input the pipeline finds
five positive matches, not four, and the claimed match sangat is not among
them; it finds seven contextual hits, not four; and the weighted score is
15.375, not 9.6. -/
theorem worked_scenario_cex :
    (enrichFromRaw C7text).positiveMatches.length = 5 ∧
    (enrichFromRaw C7text).positiveMatches.length ≠ 4 ∧
    ¬ "sangat" ∈ (enrichFromRaw C7text).positiveMatches ∧
    "tumbuh" ∈ (enrichFromRaw C7text).positiveMatches ∧
    (enrichFromRaw C7text).nutritionContext.length = 7 ∧
    (enrichFromRaw C7text).nutritionContext.length ≠ 4 ∧
    (enrichFromRaw C7text).weightedScore ≠ (9.6 : ℚ) := by
  obtain ⟨hp, _, hc, hw, _, _, _⟩ := workedScenario_values
  rw [hp, hc, hw]
  refine ⟨by decide, by decide, by decide, by decide, by decide, by decide,
    by norm_num⟩

/-! ## C8 -/

/-- C8: within one searchTweets call whose every attempt throws a detected
rate-limit error, the loop computes exactly MAX_RETRIES backoff delays,
the k-th being the base delay times 2 to the k (so each is strictly
greater than the one before, before jitter), and then terminates by
surfacing the last rate-limit error; a non-rate-limit error on the first
attempt is rethrown immediately with no backoff delay computed. -/
theorem backoff_retry (attempts : Nat → Except String (List String))
    (m0 m1 m2 : String)
    (h0 : attempts 0 = .error m0) (h1 : attempts 1 = .error m1)
    (h2 : attempts 2 = .error m2)
    (r0 : isRateLimitError m0 = true) (r1 : isRateLimitError m1 = true)
    (r2 : isRateLimitError m2 = true) :
    searchTweetsModel attempts =
      (.error m2,
       [2 ^ 1 * RATE_LIMIT_DELAY, 2 ^ 2 * RATE_LIMIT_DELAY,
        2 ^ 3 * RATE_LIMIT_DELAY]) ∧
    (searchTweetsModel attempts).2.length = MAX_RETRIES ∧
    2 ^ 1 * RATE_LIMIT_DELAY < 2 ^ 2 * RATE_LIMIT_DELAY ∧
    2 ^ 2 * RATE_LIMIT_DELAY < 2 ^ 3 * RATE_LIMIT_DELAY ∧
    (∀ (attB : Nat → Except String (List String)) (m : String),
      attB 0 = .error m → isRateLimitError m = false →
      searchTweetsModel attB = (.error m, [])) := by
  have hmain : searchTweetsModel attempts =
      (.error m2,
       [2 ^ 1 * RATE_LIMIT_DELAY, 2 ^ 2 * RATE_LIMIT_DELAY,
        2 ^ 3 * RATE_LIMIT_DELAY]) := by
    simp only [searchTweetsModel, MAX_RETRIES]
    simp [searchGo, h0, r0, h1, r1, h2, r2, MAX_RETRIES, RATE_LIMIT_DELAY]
  refine ⟨hmain, by rw [hmain]; rfl, by norm_num [RATE_LIMIT_DELAY],
    by norm_num [RATE_LIMIT_DELAY], ?_⟩
  intro attB m hm hr
  simp only [searchTweetsModel, MAX_RETRIES]
  simp [searchGo, hm, hr]

/-- Witness for C8: a unit of work whose three attempts all fail with the
literal message rate limit, and one whose first attempt fails with a
generic navigation error. -/
theorem backoff_retry_witness :
    ((fun _ => (.error "rate limit" : Except String (List String))) 0 =
        .error "rate limit") ∧
    isRateLimitError "rate limit" = true ∧
    isRateLimitError "boom" = false ∧
    searchTweetsModel (fun _ => .error "rate limit") =
      (.error "rate limit",
       [2 ^ 1 * RATE_LIMIT_DELAY, 2 ^ 2 * RATE_LIMIT_DELAY,
        2 ^ 3 * RATE_LIMIT_DELAY]) ∧
    searchTweetsModel (fun _ => .error "boom") = (.error "boom", []) :=
  ⟨rfl, by decide, by decide,
   (backoff_retry (fun _ => .error "rate limit") "rate limit" "rate limit"
      "rate limit" rfl rfl rfl (by decide) (by decide) (by decide)).1,
   (backoff_retry (fun _ => .error "rate limit") "rate limit" "rate limit"
      "rate limit" rfl rfl rfl (by decide) (by decide) (by decide)).2.2.2.2
     (fun _ => .error "boom") "boom" rfl (by decide)⟩

/-! ## C9 -/

/-- C9: the scroll loop of searchTweetsInternal.  First, on a feed whose
content height never grows and that shows no rate-limit banner, the loop
ends within maxScrollAttempts + 1 iterations and returns the tweets
collected so far without throwing.  Second, any iteration that continues
the loop increments the stagnation counter when the height did not change
and resets it to zero when it did.  Third, once the requested tweet count
is reached the loop stops at once with the first maxTweets collected. -/
theorem scroll_loop_props (page : Nat → PageState) (maxT : Nat) :
    ((∀ j, (page j).rateLimited = false) →
     (∀ j, (page (j + 1)).height = (page j).height) →
     ∃ r, scrollRun page maxT (maxScrollAttempts + 1) ⟨0, [], 0⟩ =
        some (.ok r)) ∧
    (∀ s s2, scrollStep page maxT s = .runOn s2 →
      s2.i = s.i + 1 ∧
      ((page (s.i + 1)).height = (page s.i).height →
        s2.attempts = s.attempts + 1) ∧
      ((page (s.i + 1)).height ≠ (page s.i).height → s2.attempts = 0)) ∧
    (∀ s : ScrollSt, maxT ≤ s.tweets.length →
      scrollStep page maxT s = .done (s.tweets.take maxT)) := by
  refine ⟨?_, ?_, ?_⟩
  · intro hR hH
    have hstep : ∀ s : ScrollSt, s.attempts < maxScrollAttempts →
        (∃ r, scrollStep page maxT s = .done r) ∨
        scrollStep page maxT s =
          .runOn ⟨s.i + 1, addUnique s.tweets (page s.i).items,
            s.attempts + 1⟩ := by
      intro s hs
      by_cases h1 : s.tweets.length < maxT
      · by_cases h2 : maxT ≤ (addUnique s.tweets (page s.i).items).length
        · exact Or.inl ⟨(addUnique s.tweets (page s.i).items).take maxT,
            by simp [scrollStep, h1, hs, h2]⟩
        · exact Or.inr (by simp [scrollStep, h1, hs, h2, hR s.i, hH s.i])
      · exact Or.inl ⟨s.tweets.take maxT, by simp [scrollStep, h1]⟩
    have hstop : ∀ s : ScrollSt, ¬ s.attempts < maxScrollAttempts →
        scrollStep page maxT s = .done (s.tweets.take maxT) := by
      intro s hs
      simp [scrollStep, hs]
    rcases hstep ⟨0, [], 0⟩ (by norm_num [maxScrollAttempts]) with ⟨r, hr⟩ | hr
    · exact ⟨r, by simp [scrollRun, hr]⟩
    · rcases hstep ⟨1, addUnique [] (page 0).items, 1⟩
          (by norm_num [maxScrollAttempts]) with ⟨r, hr2⟩ | hr2
      · exact ⟨r, by simp [scrollRun, hr, hr2]⟩
      · have hr3 := hstop
          ⟨2, addUnique (addUnique [] (page 0).items) (page 1).items, 2⟩
          (by norm_num [maxScrollAttempts])
        exact ⟨List.take maxT
            (addUnique (addUnique [] (page 0).items) (page 1).items),
          by simp [scrollRun, hr, hr2, hr3]⟩
  · intro s s2 h
    unfold scrollStep at h
    split at h
    · exact ScrollOut.noConfusion h
    · split at h
      · exact ScrollOut.noConfusion h
      · split at h
        · exact ScrollOut.noConfusion h
        · split at h
          · cases h
            have hh : (page (s.i + 1)).height = (page s.i).height := by
              assumption
            exact ⟨rfl, fun _ => rfl, fun hne => absurd hh hne⟩
          · cases h
            have hh : ¬ (page (s.i + 1)).height = (page s.i).height := by
              assumption
            exact ⟨rfl, fun heq => absurd heq hh, fun _ => rfl⟩
  · intro s hle
    have hcond : ¬ (s.tweets.length < maxT ∧ s.attempts < maxScrollAttempts) := by
      rintro ⟨h1, _⟩
      omega
    simp [scrollStep, hcond]

/-- Witness for C9 on a constant empty feed that never grows: the loop
ends with an ok result (the empty collection) within three iterations. -/
theorem scroll_loop_props_witness :
    (∀ j, ((fun (_ : Nat) => PageState.mk [] 5 false) j).rateLimited = false) ∧
    (∀ j, ((fun (_ : Nat) => PageState.mk [] 5 false) (j + 1)).height =
      ((fun (_ : Nat) => PageState.mk [] 5 false) j).height) ∧
    ∃ r, scrollRun (fun (_ : Nat) => PageState.mk [] 5 false) 8
        (maxScrollAttempts + 1) ⟨0, [], 0⟩ = some (.ok r) :=
  ⟨fun _ => rfl, fun _ => rfl,
   (scroll_loop_props (fun (_ : Nat) => PageState.mk [] 5 false) 8).1
     (fun _ => rfl) (fun _ => rfl)⟩
